import Mathlib

/-!
# Verification of the photo-processor task orchestration core

A shallow embedding, in Lean 4, of the task orchestration and recovery
engine of the `photo-processor` repository: the retry/backoff utility,
the error classifier, the recovery routine, the download/upload
pipeline, the extraction (resolution) pass, the fingerprint normalizer,
and the scheduler's start/persistence paths.  Character data is modelled
as `List Char`; JavaScript numbers occurring in the backoff arithmetic
are modelled as rationals; effectful collaborators (fetch, upload,
browser interaction, the SQLite store, wall-clock time and randomness)
are modelled as explicit inputs and explicit state.
-/

namespace PhotoProcessor

/-- Character strings of the modelled program: JavaScript strings are
sequences of characters, modelled as `List Char`. -/
abbrev Str := List Char

/-- Coerce a Lean string literal to the model's string type. -/
def strOf (s : String) : Str := s.data

/-- JavaScript `haystack.includes(needle)`: substring containment,
by scanning for a prefix match at every suffix of the haystack. -/
def containsSub : Str → Str → Bool
  | [], sub => sub.isEmpty
  | c :: t, sub => sub.isPrefixOf (c :: t) || containsSub t sub

/-- JavaScript `s.toLowerCase()` on the character-list model. -/
def toLowerStr (s : Str) : Str := s.map Char.toLower

/-! ## Backoff calculator (`apps/server/src/utils/retry.ts`)

`calculateDelay(attempt, baseDelay = 1000, maxDelay = 30000)` computes
`Math.min(Math.floor(exponentialDelay * (0.8 + Math.random() * 0.4)), maxDelay)`
with `exponentialDelay = baseDelay * 2 ** (attempt - 1)`.  The
`Math.random()` draw is modelled as an explicit parameter `r ∈ [0,1)`,
and JavaScript float arithmetic as exact rational arithmetic. -/

/-- Model of `calculateDelay` from `utils/retry.ts`, with the random draw `r`
made explicit.  `attempt` is 1-based (as at every call site). -/
def calculateDelay (attempt : ℕ) (baseDelay maxDelay r : ℚ) : ℚ :=
  let exponentialDelay : ℚ := baseDelay * 2 ^ (attempt - 1)
  let jitter : ℚ := exponentialDelay * (4/5 + r * (2/5))
  min ((Int.floor jitter : ℤ) : ℚ) maxDelay

/-! ## Error classifier (`task-manager.service.ts`, lines 16–82) -/

/-- The error taxonomy of `task-manager.service.ts` (enum
`TaskErrorType`).  The spec names these `SessionCrashed`,
`SessionTimeout`, `NetworkError`, `AuthExpired`,
`StorageQuotaExceeded`, `Unknown` respectively. -/
inductive TaskErrorType where
  | browser_crashed
  | browser_timeout
  | network_error
  | dropbox_auth
  | dropbox_quota
  | unknown
deriving DecidableEq, Repr

/-- Model of `RECOVERABLE_ERRORS` from `task-manager.service.ts` lines 25–30. -/
def RECOVERABLE_ERRORS : List TaskErrorType :=
  [.browser_crashed, .browser_timeout, .network_error, .unknown]

/-- Model of `classifyTaskError` from `task-manager.service.ts` lines 63–82:
lowercase the message, then match known substrings in priority order. -/
def classifyTaskError (message : Str) : TaskErrorType :=
  let m := toLowerStr message
  if containsSub m (strOf "target closed") ||
      containsSub m (strOf "browser disconnected") then .browser_crashed
  else if containsSub m (strOf "timeout") then .browser_timeout
  else if containsSub m (strOf "fetch failed") || containsSub m (strOf "network") ||
      containsSub m (strOf "econnreset") then .network_error
  else if containsSub m (strOf "invalid_access_token") ||
      containsSub m (strOf "expired_access_token") then .dropbox_auth
  else if containsSub m (strOf "insufficient_space") then .dropbox_quota
  else .unknown

/-- The spec's names for the six categories (§4.4 of the design). -/
inductive SpecErrorCategory where
  | sessionCrashed
  | sessionTimeout
  | networkError
  | authExpired
  | storageQuotaExceeded
  | unknownError
deriving DecidableEq, Repr

/-- Correspondence between the code's category names and the spec's
names (the spec renames browser→session and dropbox→storage). -/
def specCategoryOf : TaskErrorType → SpecErrorCategory
  | .browser_crashed => .sessionCrashed
  | .browser_timeout => .sessionTimeout
  | .network_error => .networkError
  | .dropbox_auth => .authExpired
  | .dropbox_quota => .storageQuotaExceeded
  | .unknown => .unknownError

/-- The spec's classification table, §4.4: an ordered list of
(substring set, category) rules; the first rule with a matching
substring wins, `Unknown` otherwise. -/
def specClassifierRules : List (List Str × SpecErrorCategory) :=
  [([strOf "target closed", strOf "browser disconnected"], .sessionCrashed),
   ([strOf "timeout"], .sessionTimeout),
   ([strOf "fetch failed", strOf "network", strOf "econnreset"], .networkError),
   ([strOf "invalid_access_token", strOf "expired_access_token"], .authExpired),
   ([strOf "insufficient_space"], .storageQuotaExceeded)]

/-- The spec's description of the classifier (§4.4): case-insensitive
matching against the ordered rule table, defaulting to `Unknown`. -/
def classifySpec (message : Str) : SpecErrorCategory :=
  let m := toLowerStr message
  match specClassifierRules.find? (fun rule => rule.1.any (fun sub => containsSub m sub)) with
  | some rule => rule.2
  | none => .unknownError

/-! ## Sleeps (`utils/retry.ts` line 222, `task-manager.service.ts` lines 698–707)

A sleep is modelled by the wall-clock duration it waits, as a function
of the sleep length `ms` and of the time `abortAt` (relative to the
start of the sleep) at which the task's cancellation signal fires, if
it does (`none` = the signal never fires during the sleep). -/

/-- Model of `sleep(ms)` from `utils/retry.ts` lines 222–224:
`new Promise((resolve) => setTimeout(resolve, ms))`.  It receives no
cancellation signal, so the time waited is `ms` regardless of when the
task's signal fires. -/
def utilSleepWait (ms : ℕ) (_abortAt : Option ℕ) : ℕ :=
  ms

/-- Model of `TaskManager.sleep(ms, signal)` from `task-manager.service.ts`
lines 698–707: resolves at `setTimeout(ms)` or at the `abort` event,
whichever happens first. -/
def taskManagerSleepWait (ms : ℕ) (abortAt : Option ℕ) : ℕ :=
  match abortAt with
  | none => ms
  | some t => if t < ms then t else ms

/-- The inter-cycle wait, `runTaskLoop` line 684:
`await this.sleep(config.checkInterval * 1000, abortController.signal)`. -/
def interCycleWait (ms : ℕ) (abortAt : Option ℕ) : ℕ :=
  taskManagerSleepWait ms abortAt

/-- The between-attempt download backoff, `downloader.service.ts`
line 104: `await sleep(delay)` — the signal-less retry-util sleep. -/
def downloadBackoffWait (ms : ℕ) (abortAt : Option ℕ) : ℕ :=
  utilSleepWait ms abortAt

/-- The recovery backoff, `task-manager.service.ts` line 425:
`await sleep(delayMs)` — the signal-less retry-util sleep. -/
def recoveryBackoffWait (ms : ℕ) (abortAt : Option ℕ) : ℕ :=
  utilSleepWait ms abortAt

/-! ## Dedup/history store (`db/index.ts` schema, `task-manager.service.ts` lines 143–172)

The `download_history` table with its `UNIQUE(task_id, fingerprint)`
constraint is modelled as a list of rows; `INSERT OR REPLACE` removes
any row with the conflicting key and inserts the new row. -/

/-- Row status of `download_history` (`status TEXT`, either
`'success'` or `'failed'`). -/
inductive DownloadStatus where
  | success
  | failed
deriving DecidableEq, Repr

/-- A `download_history` row (the `id` autoincrement column and the
`downloaded_at` default timestamp are not modelled; neither is ever
read by the core logic). -/
structure DownloadRecord where
  taskId : ℕ
  fingerprint : Str
  originalFilename : Str
  thumbnailUrl : Str
  dropboxPath : Option Str
  fileSize : Option ℕ
  status : DownloadStatus
  errorMessage : Option Str
deriving DecidableEq, Repr

/-- The `download_history` table contents. -/
abbrev DownloadHistory := List DownloadRecord

/-- Whether a row occupies the `(taskId, fingerprint)` slot. -/
def rowHasKey (q : DownloadRecord) (taskId : ℕ) (fingerprint : Str) : Bool :=
  q.taskId == taskId && q.fingerprint == fingerprint

/-- Model of `TaskManager.saveDownloadRecord` (lines 156–172): `INSERT OR
REPLACE INTO download_history`, keyed by `UNIQUE(task_id,
fingerprint)` — any existing row with the same key is replaced. -/
def saveDownloadRecord (db : DownloadHistory) (r : DownloadRecord) : DownloadHistory :=
  r :: db.filter (fun q => !(rowHasKey q r.taskId r.fingerprint))

/-- Model of `TaskManager.isDownloaded` (lines 143–151): `SELECT id FROM
download_history WHERE task_id = ? AND fingerprint = ?` — true when
ANY row with the key exists, regardless of its `status`. -/
def isDownloaded (db : DownloadHistory) (taskId : ℕ) (fingerprint : Str) : Bool :=
  db.any (fun q => rowHasKey q taskId fingerprint)

/-- KeysUnique: at most one row per `(taskId, fingerprint)` — the
invariant enforced by `UNIQUE(task_id, fingerprint)`. -/
def KeysUnique (db : DownloadHistory) : Prop :=
  db.Pairwise (fun a b => ¬(a.taskId = b.taskId ∧ a.fingerprint = b.fingerprint))

/-- Model of `PhotoInfo` from `packages/shared`: produced by the discovery
pass. -/
structure PhotoInfo where
  index : ℕ
  fingerprint : Str
  thumbnailUrl : Str
deriving DecidableEq, Repr

/-- The new-item filter of the cycle loop (`runTaskLoop` lines
562–565): `allPhotos.filter((photo) => !this.isDownloaded(taskId,
photo.fingerprint))`. -/
def filterNewPhotos (db : DownloadHistory) (taskId : ℕ) (photos : List PhotoInfo) :
    List PhotoInfo :=
  photos.filter (fun p => !(isDownloaded db taskId p.fingerprint))

/-! ## Download/upload pipeline (`downloader.service.ts`) -/

/-- Model of `PhotoWithUrl` from `packages/shared`: a resolved resource. -/
structure PhotoWithUrl where
  index : ℕ
  fingerprint : Str
  thumbnailUrl : Str
  url : Str
  filename : Str
deriving DecidableEq, Repr

/-- Model of `DownloadResult` from `downloader.service.ts` lines 10–17. -/
structure DownloadResult where
  success : Bool
  fingerprint : Str
  filename : Str
  dropboxPath : Option Str
  fileSize : Option ℕ
  error : Option Str
deriving DecidableEq, Repr

/-- What one attempt of `downloadPhoto`'s try-block does, as observed
from outside: the external fetch/upload collaborators either produce a
non-ok HTTP response (the attempt throws `HTTP ${status}:
${statusText}`), throw on their own (network error, upload failure),
or deliver the uploaded file's Dropbox path and size. -/
inductive AttemptOutcome where
  | httpError (status : ℕ) (statusText : Str)
  | thrown (msg : Str)
  | uploaded (path : Str) (size : ℕ)
deriving DecidableEq, Repr

/-- The error message an attempt fails with (`none` when it
succeeds): `downloader.service.ts` lines 63–64 build
`HTTP ${status}: ${statusText}`; other exceptions keep their own
message (line 94). -/
def attemptErrorMessage : AttemptOutcome → Option Str
  | .httpError status statusText =>
      some (strOf "HTTP " ++ Nat.toDigits 10 status ++ strOf ": " ++ statusText)
  | .thrown msg => some msg
  | .uploaded _ _ => none

/-- Whether an attempt reached a successful upload. -/
def attemptSucceeded : AttemptOutcome → Bool
  | .uploaded _ _ => true
  | _ => false

/-- The success value returned at `downloader.service.ts` lines
83–92. -/
def successResult (photo : PhotoWithUrl) (path : Str) (size : ℕ) : DownloadResult :=
  { success := true, fingerprint := photo.fingerprint, filename := photo.filename,
    dropboxPath := some path, fileSize := some size, error := none }

/-- The failure value returned at `downloader.service.ts` lines
111–119 (and the unreachable fallback at lines 125–130). -/
def failureResult (photo : PhotoWithUrl) (msg : Str) : DownloadResult :=
  { success := false, fingerprint := photo.fingerprint, filename := photo.filename,
    dropboxPath := none, fileSize := none, error := some msg }

/-- Model of `MAX_RETRIES = 5` (`downloader.service.ts` line 6). -/
def MAX_RETRIES : ℕ := 5

/-- The attempt loop of `downloadPhoto` (lines 53–122), over the list
of outcomes of the remaining attempts.  Returns the result together
with the number of attempts consumed.  On an error with attempts left
the loop sleeps (`downloadBackoffWait`) and retries; on the last
attempt it returns the failure value; an empty attempt budget hits the
"should never reach here" fallback (lines 125–130). -/
def downloadPhotoGo (photo : PhotoWithUrl) : List AttemptOutcome → DownloadResult × ℕ
  | [] => (failureResult photo (strOf "Unknown error"), 0)
  | .uploaded path size :: _ => (successResult photo path size, 1)
  | o :: [] => (failureResult photo ((attemptErrorMessage o).getD (strOf "")), 1)
  | _o :: rest =>
      let p := downloadPhotoGo photo rest
      (p.1, p.2 + 1)

/-- The attempt outcomes of one `downloadPhoto` call, for attempts
`1..MAX_RETRIES`, drawn from the attempt oracle. -/
def attemptsList (outcome : ℕ → AttemptOutcome) : List AttemptOutcome :=
  (List.range MAX_RETRIES).map (fun i => outcome (i + 1))

/-- Model of `PhotoDownloader.downloadPhoto` (lines 50–131): up to
`MAX_RETRIES` attempts against the attempt oracle `outcome`
(1-based). -/
def downloadPhoto (photo : PhotoWithUrl) (outcome : ℕ → AttemptOutcome) :
    DownloadResult × ℕ :=
  downloadPhotoGo photo (attemptsList outcome)

/-- Model of `PhotoDownloader.downloadPhotos` (lines 136–162): sequential loop
over the photos, aggregating `(success, failed, results)`.  The
attempt oracle is indexed by the position of the photo in the list. -/
def downloadPhotos (outcome : ℕ → ℕ → AttemptOutcome) :
    ℕ → List PhotoWithUrl → ℕ × ℕ × List DownloadResult
  | _, [] => (0, 0, [])
  | i, photo :: rest =>
      let r := (downloadPhoto photo (outcome i)).1
      let acc := downloadPhotos outcome (i + 1) rest
      (acc.1 + (if r.success then 1 else 0),
       acc.2.1 + (if r.success then 0 else 1),
       r :: acc.2.2)

/-! ## Fingerprint/URL normalizer (`packages/shared/src/utils/url.ts`)

JavaScript string helpers are modelled over `List Char`.  Wall-clock
time (`Date.now()`) and `Math.floor(Math.random() * 10000)` are passed
in as explicit `now`/`rand` parameters. -/

/-- The segment of `s` after the last occurrence of `c` (all of `s`
when `c` does not occur): JavaScript `s.split(c).pop()`. -/
def afterLastChar (c : Char) (s : Str) : Str :=
  (s.reverse.takeWhile (fun d => d != c)).reverse

/-- JavaScript `replace(/\.\./g, '_')`: left-to-right, non-overlapping
replacement of each `..` by `_`. -/
def replaceDotDot : Str → Str
  | '.' :: '.' :: rest => '_' :: replaceDotDot rest
  | c :: rest => c :: replaceDotDot rest
  | [] => []

/-- JavaScript `replace(/^[/\\]+/, '')`: strip the leading run of
slashes and backslashes. -/
def dropLeadingSlashes (s : Str) : Str :=
  s.dropWhile (fun c => c == '/' || c == '\\')

/-- JavaScript `replace(/[/\\]/g, '_')`: replace every path separator
by an underscore. -/
def replaceSlashes (s : Str) : Str :=
  s.map (fun c => if c == '/' || c == '\\' then '_' else c)

/-- The segment after the last `/` or `\\`
(`Math.max(lastIndexOf('/'), lastIndexOf('\\'))` + `substring`,
`url.ts` lines 48–51): all of `s` when neither occurs. -/
def afterLastPathSep (s : Str) : Str :=
  (s.reverse.takeWhile (fun c => c != '/' && c != '\\')).reverse

/-- Model of `sanitizePathComponent` (`url.ts` lines 40–54). -/
def sanitizePathComponent (filename : Str) : Str :=
  let safe := replaceSlashes (dropLeadingSlashes (replaceDotDot filename))
  afterLastPathSep safe

/-- The fallback fingerprint of `extractFingerprintFromUrl` (`url.ts`
lines 104–110): `fallback_${Date.now()}_${fallbackIndex}`, with
`Math.floor(Math.random() * 10000)` in place of a missing index. -/
def fallbackFingerprint (now : ℕ) (fallbackIndex : Option ℕ) (rand : ℕ) : Str :=
  strOf "fallback_" ++ Nat.toDigits 10 now ++ strOf "_" ++
    (match fallbackIndex with
     | some i => Nat.toDigits 10 i
     | none => Nat.toDigits 10 rand)

/-- The throwing core of `extractFingerprintFromUrl` (`url.ts` lines
77–95): protocol fix-up, query-string strip, CDN-suffix (`~`) strip,
last path segment. -/
def fingerprintCore (url : Str) : Str :=
  let normalizedUrl := if (strOf "//").isPrefixOf url then strOf "https:" ++ url else url
  let path := normalizedUrl.takeWhile (fun c => c != '?')
  let path := if containsSub path (strOf "~") then path.takeWhile (fun c => c != '~') else path
  afterLastChar '/' path

/-- Model of `extractFingerprintFromUrl` (`url.ts` lines 72–111):
`validateInput` rejects the empty string and inputs longer than 4096,
and any failure (including an empty extracted filename) is caught and
mapped to the time+ordinal fallback. -/
def extractFingerprintFromUrl (url : Str) (fallbackIndex : Option ℕ) (now rand : ℕ) : Str :=
  if url.length = 0 ∨ 4096 < url.length then fallbackFingerprint now fallbackIndex rand
  else
    let filename := fingerprintCore url
    if filename.isEmpty then fallbackFingerprint now fallbackIndex rand
    else sanitizePathComponent filename

/-- Model of `sanitizeFilename` (`url.ts` lines 133–161): path-traversal
protection, replacement of Dropbox-illegal characters, empty fallback
to `unknown.jpg`, and the 200-character clamp that preserves the
extension. -/
def sanitizeFilename (filename : Str) : Str :=
  if filename.isEmpty then strOf "unknown.jpg"
  else
    let safe := sanitizePathComponent filename
    let safe := safe.map (fun c =>
      if c == ':' || c == '"' || c == '*' || c == '?' || c == '|' || c == '<' ||
          c == '>' || c == '\\' || c == '/' || c == '\'' then '_' else c)
    if safe.isEmpty ∨ safe.all Char.isWhitespace then strOf "unknown.jpg"
    else if 200 < safe.length then
      let lastDot : ℤ := (safe.length : ℤ) - 1 - (safe.reverse.takeWhile (fun c => c != '.')).length
      if 0 < lastDot then
        let extension := safe.drop lastDot.toNat
        safe.take (200 - extension.length) ++ extension
      else safe.take 200
    else safe

/-- The result of the WHATWG `new URL(...)` platform API, as consumed
by `extractFilenameFromUrl`: the parsed pathname and the decoded query
parameters. -/
structure ParsedUrl where
  pathname : Str
  query : List (Str × Str)
deriving DecidableEq, Repr

/-- The `new URL(...)` platform API (out of the repository): parsing
either yields a `ParsedUrl` or throws (`none`). -/
structure UrlApi where
  parse : Str → Option ParsedUrl

/-- Model of `extractFilenameFromUrl` (`url.ts` lines 181–220), over the URL
platform API: last pathname segment, CDN-suffix strip,
extension recovery from the `wx_fmt`/`format`/`type`/`ext` query
parameters, and a split-based fallback when parsing (or validation)
throws. -/
def extractFilenameFromUrl (api : UrlApi) (url : Str) : Str :=
  let fallback : Str :=
    let f := (afterLastChar '/' url).takeWhile (fun c => c != '?')
    let f := if f.isEmpty then strOf "unknown.jpg" else f
    let f := if containsSub f (strOf "~") then f.takeWhile (fun c => c != '~') else f
    sanitizeFilename f
  if url.length = 0 ∨ 4096 < url.length then fallback
  else
    match api.parse (if (strOf "//").isPrefixOf url then strOf "https:" ++ url else url) with
    | none => fallback
    | some u =>
        let base := afterLastChar '/' u.pathname
        let base := if containsSub base (strOf "~") then base.takeWhile (fun c => c != '~') else base
        let revNoExt := base.reverse.takeWhile (fun c => c != '.')
        let lastDot : ℤ := (base.length : ℤ) - 1 - revNoExt.length
        let hasExtension := 0 < lastDot ∧ lastDot < (base.length : ℤ) - 1
        if hasExtension then sanitizeFilename (if base.isEmpty then strOf "unknown.jpg" else base)
        else
          match [strOf "wx_fmt", strOf "format", strOf "type", strOf "ext"].findSome?
              (fun param => (u.query.find? (fun q => q.1 == param)).bind
                (fun q => if q.2.isEmpty then none else some q.2)) with
          | some value => sanitizeFilename (base ++ strOf "." ++ value)
          | none => sanitizeFilename (if base.isEmpty then strOf "unknown.jpg" else base)

/-- Model of `normalizeUrl` (`url.ts` lines 229–237), with the `validateInput`
throw surfaced as `none`. -/
def normalizeUrlE (url : Str) : Option Str :=
  if url.length = 0 ∨ 4096 < url.length then none
  else if (strOf "//").isPrefixOf url then some (strOf "https:" ++ url)
  else some url

/-! ## Extraction resolution pass (`extractor.service.ts` lines 343–438) -/

/-- What the browser interaction for one matched item does, as
observed from outside: the click/wait/locate/read sequence either
yields the `href` of the "view original" link, yields a null `href`
(the item is skipped silently), or throws somewhere (the failure is
logged and the item skipped). -/
inductive ResolveOutcome where
  | resolved (href : Str)
  | noHref
  | failed
deriving DecidableEq, Repr

/-- One matched page item, as seen by `extractPhotoUrls`: its
thumbnail `src` attribute (possibly null) and the outcome of the
detail-view interaction. -/
structure PageItem where
  thumbnailUrl : Option Str
  outcome : ResolveOutcome
deriving DecidableEq, Repr

/-- The per-item body of the `extractPhotoUrls` loop (lines 366–430):
recompute the fingerprint from the thumbnail, skip items not in the
target set, then open the detail view and read, normalize and record
the resource; any throw (including `normalizeUrl` on an empty href)
is caught, logged and skipped, yielding nothing for this item. -/
def resolveItem (api : UrlApi) (now : ℕ) (targets : List Str) (idx : ℕ) (it : PageItem) :
    Option PhotoWithUrl :=
  let thumbnailUrl := it.thumbnailUrl.getD []
  let fingerprint := extractFingerprintFromUrl thumbnailUrl (some idx) now 0
  if targets.contains fingerprint then
    match it.outcome with
    | .resolved href =>
        match normalizeUrlE href with
        | some url =>
            some { index := idx, fingerprint := fingerprint, thumbnailUrl := thumbnailUrl,
                   url := url, filename := extractFilenameFromUrl api url }
        | none => none
    | .noHref => none
    | .failed => none
  else none

/-- The `extractPhotoUrls` loop over all matched items, starting at
item index `idx`: each item contributes its own resolution result (or
nothing) and the loop always continues with the next item. -/
def extractLoop (api : UrlApi) (now : ℕ) (targets : List Str) :
    ℕ → List PageItem → List PhotoWithUrl
  | _, [] => []
  | idx, it :: rest =>
      match resolveItem api now targets idx it with
      | some r => r :: extractLoop api now targets (idx + 1) rest
      | none => extractLoop api now targets (idx + 1) rest

/-- Model of `PhotoExtractor.extractPhotoUrls(targetFingerprints)` (lines
343–438): empty target list short-circuits to `[]`; otherwise walk
all matched items in order. -/
def extractPhotoUrls (api : UrlApi) (now : ℕ) (targets : List Str)
    (items : List PageItem) : List PhotoWithUrl :=
  if targets.isEmpty then []
  else extractLoop api now targets 0 items

/-! ## Task scheduler (`task-manager.service.ts`) -/

/-- Model of `TaskStatus` from `packages/shared`. -/
inductive TaskStatus where
  | idle
  | running
  | paused
  | error
deriving DecidableEq, Repr

/-- Model of `RecoveryEvent` (`task-manager.service.ts` lines 35–40). -/
structure RecoveryEvent where
  timestamp : ℕ
  errorType : TaskErrorType
  recovered : Bool
  attempt : ℕ
deriving DecidableEq, Repr

/-- Model of `TaskSelectors` (element-selection rules of a task config). -/
structure TaskSelectors where
  photoItem : Str
  photoClick : Str
  viewOriginal : Str
deriving DecidableEq, Repr

/-- Model of `TaskConfig` from `packages/shared` (as read by `getTaskConfig`,
lines 115–138). -/
structure TaskConfig where
  id : ℕ
  name : Str
  targetUrl : Str
  checkInterval : ℕ
  selectors : TaskSelectors
  browserHeadless : Bool
  browserTimeout : ℕ
  dropboxPath : Str
  isActive : Bool
deriving DecidableEq, Repr

/-- Model of `RunningTask` (`task-manager.service.ts` lines 42–56); the live
extractor handle and the abort controller are external resources and
are not part of the tracked state. -/
structure RunningTaskState where
  taskId : ℕ
  config : TaskConfig
  status : TaskStatus
  currentCycle : ℕ
  lastCheckAt : Option ℕ
  nextCheckAt : Option ℕ
  error : Option Str
  retryCount : ℕ
  maxRetries : ℕ
  lastErrorAt : Option ℕ
  recoveryHistory : List RecoveryEvent
deriving DecidableEq, Repr

/-- The `RunningTask` created by `startTask` (lines 249–263):
`currentCycle = 0`, `retryCount = 0`, `maxRetries = 3`, empty
recovery history. -/
def initialRunningTask (taskId : ℕ) (config : TaskConfig) : RunningTaskState :=
  { taskId := taskId, config := config, status := .running, currentCycle := 0,
    lastCheckAt := none, nextCheckAt := none, error := none,
    retryCount := 0, maxRetries := 3, lastErrorAt := none, recoveryHistory := [] }

/-- The externally visible steps of a recovery attempt. -/
inductive RecoveryAction where
  | backoffSleep (delayMs : ℚ)
  | reinitializeSession
  | navigateToTarget
deriving DecidableEq

/-- Model of `TaskManager.attemptRecovery` (lines 368–469) for a present
running task.  `errMsg` is the escaping error's message, `r` the
jitter draw of the backoff computation, `reinitOk`/`navOk` whether
the session re-acquisition and the re-navigation succeed, `now` the
wall clock.  Returns whether the task recovered, the updated task
state and the list of performed recovery steps.  Not-recoverable
classifications and an exhausted retry budget return `false`
immediately: no steps, no state change. -/
def attemptRecovery (task : RunningTaskState) (errMsg : Str) (r : ℚ)
    (reinitOk navOk : Bool) (now : ℕ) :
    Bool × RunningTaskState × List RecoveryAction :=
  let errorType := classifyTaskError errMsg
  if ¬ (errorType ∈ RECOVERABLE_ERRORS) then
    (false, task, [])
  else if task.maxRetries ≤ task.retryCount then
    (false, task, [])
  else
    let retryCount' := task.retryCount + 1
    let delayMs := calculateDelay retryCount' 1000 30000 r
    if reinitOk && navOk then
      (true,
       { task with
         retryCount := retryCount',
         lastErrorAt := some now,
         recoveryHistory := task.recoveryHistory ++
           [{ timestamp := now, errorType := errorType, recovered := true,
              attempt := retryCount' }],
         error := none,
         status := .running },
       [.backoffSleep delayMs, .reinitializeSession, .navigateToTarget])
    else
      (false,
       { task with
         retryCount := retryCount',
         lastErrorAt := some now,
         recoveryHistory := task.recoveryHistory ++
           [{ timestamp := now, errorType := errorType, recovered := false,
              attempt := retryCount' }] },
       [.backoffSleep delayMs] ++ (if reinitOk then [.reinitializeSession] else []))

/-- How `handleTaskError` (lines 475–525) ends: a successful recovery
relaunches the cycle loop, anything else goes down the terminal stop
path (`task:error` event, close, stop). -/
inductive ErrorHandlingOutcome where
  | loopRelaunched
  | terminalStop
deriving DecidableEq, Repr

/-- The outcome of `handleTaskError` (lines 475–525) for a present
running task: decided entirely by `attemptRecovery`'s verdict. -/
def handleTaskErrorOutcome (task : RunningTaskState) (errMsg : Str) (r : ℚ)
    (reinitOk navOk : Bool) (now : ℕ) : ErrorHandlingOutcome :=
  if (attemptRecovery task errMsg r reinitOk navOk now).1 then .loopRelaunched
  else .terminalStop

/-- One escaping failure of a task run, with the environment's
responses to the recovery steps. -/
structure FailureEvent where
  errMsg : Str
  r : ℚ
  reinitOk : Bool
  navOk : Bool
  now : ℕ

/-- A task run's sequence of escaping failures, each routed through
`attemptRecovery` (the loop is relaunched after a successful recovery
and the next escaping failure is handled the same way). -/
def recoveryRun (task : RunningTaskState) : List FailureEvent → RunningTaskState
  | [] => task
  | f :: rest =>
      recoveryRun (attemptRecovery task f.errMsg f.r f.reinitOk f.navOk f.now).2.1 rest

/-! ### `startTask` (lines 201–287) -/

/-- The events the manager emits (only the variant relevant to the
`startTask` path is carried in full). -/
inductive ManagerEvent where
  | taskStarted (taskId : ℕ)
  | taskStopped (taskId : ℕ)
  | taskError (taskId : ℕ)
deriving DecidableEq, Repr

/-- The scheduler state touched by `startTask`: the running-task map,
the `task_configs` rows, the Dropbox connection flag, and the emitted
event log. -/
structure ManagerState where
  runningTasks : List (ℕ × RunningTaskState)
  configs : List TaskConfig
  dropboxConnected : Bool
  events : List ManagerEvent
deriving Repr

/-- The operational errors `startTask` throws. -/
inductive StartTaskError where
  | alreadyRunning
  | taskNotFound
  | dropboxNotConnected
deriving DecidableEq, Repr

/-- Model of `getTaskConfig` (lines 115–138): `SELECT * FROM task_configs
WHERE id = ?`. -/
def getTaskConfig (s : ManagerState) (taskId : ℕ) : Option TaskConfig :=
  s.configs.find? (fun c => c.id == taskId)

/-- Model of `TaskManager.startTask(taskId)` (lines 201–287): the three guard
throws in order (`AlreadyRunning`, `NotFound`, `StorageNotConnected`),
then creation of the running state, the `is_active = 1` update and the
`task:started` event.  A throw leaves the state exactly as it was. -/
def startTask (s : ManagerState) (taskId : ℕ) : ManagerState × Option StartTaskError :=
  if s.runningTasks.any (fun p => p.1 == taskId) then
    (s, some .alreadyRunning)
  else
    match getTaskConfig s taskId with
    | none => (s, some .taskNotFound)
    | some config =>
        if ¬ s.dropboxConnected then
          (s, some .dropboxNotConnected)
        else
          ({ s with
             runningTasks := (taskId, initialRunningTask taskId config) :: s.runningTasks,
             configs := s.configs.map (fun c =>
               if c.id == taskId then { c with isActive := true } else c),
             events := s.events ++ [.taskStarted taskId] },
           none)

/-! ### Persistence hooks of the cycle loop (lines 603–650) -/

/-- JavaScript truthiness of `result.dropboxPath` (absent and `""`
are falsy). -/
def truthyStr : Option Str → Bool
  | none => false
  | some s => !s.isEmpty

/-- JavaScript truthiness of `result.fileSize` (absent and `0` are
falsy). -/
def truthyNat : Option ℕ → Bool
  | none => false
  | some n => decide (n ≠ 0)

/-- The `onDownloadComplete` callback (lines 603–627): look the photo
up among the resolved resources and persist a success row only when
the photo is found AND `result.dropboxPath` AND `result.fileSize` are
truthy; otherwise the store is left untouched. -/
def onDownloadComplete (db : DownloadHistory) (taskId : ℕ)
    (photosWithUrls : List PhotoWithUrl) (result : DownloadResult) : DownloadHistory :=
  match photosWithUrls.find? (fun p => p.fingerprint == result.fingerprint) with
  | some photo =>
      if truthyStr result.dropboxPath && truthyNat result.fileSize then
        saveDownloadRecord db
          { taskId := taskId, fingerprint := result.fingerprint,
            originalFilename := result.filename, thumbnailUrl := photo.thumbnailUrl,
            dropboxPath := result.dropboxPath, fileSize := result.fileSize,
            status := .success, errorMessage := none }
      else db
  | none => db

/-- The `onDownloadFailed` callback (lines 629–650): always persist a
failed row for the photo. -/
def onDownloadFailed (db : DownloadHistory) (taskId : ℕ)
    (photo : PhotoWithUrl) (error : Str) : DownloadHistory :=
  saveDownloadRecord db
    { taskId := taskId, fingerprint := photo.fingerprint,
      originalFilename := photo.filename, thumbnailUrl := photo.thumbnailUrl,
      dropboxPath := none, fileSize := none,
      status := .failed, errorMessage := some error }

/-! ## Concrete sample data used by witnesses and counterexamples -/

/-- A sample element-selection rule set. -/
def sampleSelectors : TaskSelectors :=
  { photoItem := strOf "div.photo-content.container li.photo-item",
    photoClick := strOf "span",
    viewOriginal := strOf "div.operate-buttons li.row-all-center a" }

/-- A sample task configuration row. -/
def sampleConfig : TaskConfig :=
  { id := 1, name := strOf "album", targetUrl := strOf "https://example.com/album",
    checkInterval := 60, selectors := sampleSelectors, browserHeadless := true,
    browserTimeout := 30000, dropboxPath := strOf "/photos", isActive := false }

/-- A running task whose retry budget is exhausted
(`retryCount = maxRetries = 3`). -/
def sampleExhaustedTask : RunningTaskState :=
  { initialRunningTask 1 sampleConfig with retryCount := 3 }

/-- A failed `download_history` row occupying the slot
`(1, "a.jpg")`. -/
def sampleFailedRow : DownloadRecord :=
  { taskId := 1, fingerprint := strOf "a.jpg", originalFilename := strOf "a.jpg",
    thumbnailUrl := strOf "//h/a.jpg", dropboxPath := none, fileSize := none,
    status := .failed, errorMessage := some (strOf "HTTP 404: Not Found") }

/-- The discovery-pass item with the same fingerprint `"a.jpg"`. -/
def samplePhotoInfo : PhotoInfo :=
  { index := 0, fingerprint := strOf "a.jpg", thumbnailUrl := strOf "//h/a.jpg" }

/-- The resolved resource with fingerprint `"a.jpg"`. -/
def samplePhotoWithUrl : PhotoWithUrl :=
  { index := 0, fingerprint := strOf "a.jpg", thumbnailUrl := strOf "//h/a.jpg",
    url := strOf "https://h/a.jpg", filename := strOf "a.jpg" }

/-- A successful `DownloadResult` whose reported upload size is 0. -/
def sampleZeroSizeResult : DownloadResult :=
  successResult samplePhotoWithUrl (strOf "/photos/a.jpg") 0

/-- A manager state in which task 1 is already running. -/
def sampleRunningManager : ManagerState :=
  { runningTasks := [(1, initialRunningTask 1 sampleConfig)],
    configs := [sampleConfig], dropboxConnected := true, events := [] }

/-- A URL platform API on which every parse throws (forcing
`extractFilenameFromUrl` down its fallback branch). -/
def sampleUrlApi : UrlApi :=
  { parse := fun _ => none }

/-- Ten matched page items with thumbnails `//h/f0.jpg` … `//h/f9.jpg`;
resolution of the first three throws, the remaining seven resolve to
`//x/orig.jpg`. -/
def sampleItems : List PageItem :=
  (List.range 10).map (fun i =>
    { thumbnailUrl := some (strOf "//h/f" ++ Nat.toDigits 10 i ++ strOf ".jpg"),
      outcome := if i < 3 then .failed else .resolved (strOf "//x/orig.jpg") })

/-- The ten target fingerprints `f0.jpg` … `f9.jpg`. -/
def sampleTargets : List Str :=
  (List.range 10).map (fun i => strOf "f" ++ Nat.toDigits 10 i ++ strOf ".jpg")

/-! # Theorems -/

/-! ## Helper lemmas -/

theorem char_toNat_ofNat_valid (n : ℕ) (h : n.isValidChar) : (Char.ofNat n).toNat = n := by
  rw [Char.ofNat, dif_pos h]
  rfl

theorem char_toLower_idem (c : Char) : c.toLower.toLower = c.toLower := by
  unfold Char.toLower
  by_cases h : c.toNat ≥ 65 ∧ c.toNat ≤ 90
  · have hval : (c.toNat + 32).isValidChar := Or.inl (by omega)
    have ht : (Char.ofNat (c.toNat + 32)).toNat = c.toNat + 32 :=
      char_toNat_ofNat_valid _ hval
    rw [if_pos h, ht, if_neg (by omega)]
  · rw [if_neg h, if_neg h]

theorem toLowerStr_idem (s : Str) : toLowerStr (toLowerStr s) = toLowerStr s := by
  simp only [toLowerStr, List.map_map]
  exact List.map_congr_left (fun c _ => char_toLower_idem c)

/-! ## C5: the error classifier and the recoverable set -/

/-- C5: the classifier refines the spec's description (§4.4): it maps
every message, by case-insensitive substring matching in the spec's
priority order, to exactly the category given by the spec's ordered
rule table (with the spec's names for the six categories), it is
insensitive to the case of the incoming message, and the recoverable
set is exactly {SessionCrashed, SessionTimeout, NetworkError,
Unknown}, with AuthExpired and StorageQuotaExceeded never
recoverable. -/
theorem errorClassifier_refines_spec :
    (∀ msg, specCategoryOf (classifyTaskError msg) = classifySpec msg) ∧
    (∀ msg, classifyTaskError (toLowerStr msg) = classifyTaskError msg) ∧
    (∀ t, RECOVERABLE_ERRORS.contains t =
      [SpecErrorCategory.sessionCrashed, .sessionTimeout, .networkError,
        .unknownError].contains (specCategoryOf t)) ∧
    RECOVERABLE_ERRORS.contains .dropbox_auth = false ∧
    RECOVERABLE_ERRORS.contains .dropbox_quota = false := by
  refine ⟨?_, ?_, ?_, rfl, rfl⟩
  · intro msg
    unfold classifyTaskError classifySpec specClassifierRules
    simp only [List.find?, List.any]
    by_cases h1a : containsSub (toLowerStr msg) (strOf "target closed") = true <;>
    by_cases h1b : containsSub (toLowerStr msg) (strOf "browser disconnected") = true <;>
    by_cases h2 : containsSub (toLowerStr msg) (strOf "timeout") = true <;>
    by_cases h3a : containsSub (toLowerStr msg) (strOf "fetch failed") = true <;>
    by_cases h3b : containsSub (toLowerStr msg) (strOf "network") = true <;>
    by_cases h3c : containsSub (toLowerStr msg) (strOf "econnreset") = true <;>
    by_cases h4a : containsSub (toLowerStr msg) (strOf "invalid_access_token") = true <;>
    by_cases h4b : containsSub (toLowerStr msg) (strOf "expired_access_token") = true <;>
    by_cases h5 : containsSub (toLowerStr msg) (strOf "insufficient_space") = true <;>
    simp [h1a, h1b, h2, h3a, h3b, h3c, h4a, h4b, h5, specCategoryOf]
  · intro msg
    simp only [classifyTaskError, toLowerStr_idem]
  · intro t
    cases t <;> rfl

/-! ## C3: backoff delay bounds (corrected) -/

/-- C3, counterexample: at attempt `n = 7` with the pipeline's own
`base = 1000` and `maxDelay = 30000` and jitter draw `r = 0`, the
computed delay is the cap `30000`, which lies strictly below the
claimed lower bound `0.8 × base × 2^(n−1) = 51200`; the claimed
interval is empty there and the claim fails. -/
theorem calculateDelay_claimed_interval_refuted :
    calculateDelay 7 1000 30000 0 = 30000 ∧
    calculateDelay 7 1000 30000 0 < (4/5 : ℚ) * (1000 * 2 ^ (7 - 1)) := by
  constructor <;> norm_num [calculateDelay]

/-- C3 amended: for every attempt `n ≥ 1`, nonnegative base delay,
and jitter draw `r ∈ [0,1)`, the computed delay lies in
`[min(maxDelay, ⌊0.8 × base × 2^(n−1)⌋), min(maxDelay, 1.2 × base × 2^(n−1))]`
— the cap also clamps the lower end, and `Math.floor` lowers it to
the next integer. -/
theorem calculateDelay_clamped_bounds (n : ℕ) (base maxDelay r : ℚ)
    (hn : 1 ≤ n) (hbase : 0 ≤ base) (hr0 : 0 ≤ r) (hr1 : r < 1) :
    min maxDelay ((Int.floor ((4/5) * (base * 2 ^ (n - 1))) : ℤ) : ℚ) ≤
      calculateDelay n base maxDelay r ∧
    calculateDelay n base maxDelay r ≤ min maxDelay ((6/5) * (base * 2 ^ (n - 1))) := by
  have hE : (0 : ℚ) ≤ base * 2 ^ (n - 1) := by positivity
  have hjl : (4/5) * (base * 2 ^ (n - 1)) ≤
      base * 2 ^ (n - 1) * (4/5 + r * (2/5)) := by nlinarith
  have hju : base * 2 ^ (n - 1) * (4/5 + r * (2/5)) ≤
      (6/5) * (base * 2 ^ (n - 1)) := by nlinarith
  unfold calculateDelay
  constructor
  · rw [min_comm]
    exact min_le_min (by exact_mod_cast Int.floor_le_floor hjl) le_rfl
  · rw [min_comm maxDelay]
    exact min_le_min ((Int.floor_le _).trans hju) le_rfl

/-- Witness for `calculateDelay_clamped_bounds` at `n = 1`,
`base = 1000`, `maxDelay = 30000`, `r = 1/2`. -/
theorem calculateDelay_clamped_bounds_witness :
    min (30000 : ℚ) ((Int.floor ((4/5 : ℚ) * (1000 * 2 ^ (1 - 1))) : ℤ) : ℚ) ≤
      calculateDelay 1 1000 30000 (1/2) ∧
    calculateDelay 1 1000 30000 (1/2) ≤ min (30000 : ℚ) ((6/5) * (1000 * 2 ^ (1 - 1))) :=
  calculateDelay_clamped_bounds 1 1000 30000 (1/2)
    (by norm_num) (by norm_num) (by norm_num) (by norm_num)

/-! ## C7: cancellation behaviour of the sleeps (corrected) -/

/-- C7, counterexample: the between-attempt download backoff and the
recovery backoff use the signal-less retry-util sleep; with the
task's cancellation signal firing immediately (`abortAt = 0`), both
still wait the full `1000` ms instead of returning early. -/
theorem backoffSleeps_ignore_cancellation :
    downloadBackoffWait 1000 (some 0) = 1000 ∧
    recoveryBackoffWait 1000 (some 0) = 1000 ∧
    decide (downloadBackoffWait 1000 (some 0) ≤ 0) = false ∧
    decide (recoveryBackoffWait 1000 (some 0) ≤ 0) = false := by
  decide

/-- C7 amended: only the inter-cycle wait observes the task's
cancellation signal — it waits `min t ms` when the signal fires at
`t` and the full `ms` otherwise — while the download backoff sleep
and the recovery backoff sleep take no signal and always wait the
full delay. -/
theorem sleeps_cancellation_behaviour :
    (∀ ms t, interCycleWait ms (some t) = min t ms) ∧
    (∀ ms, interCycleWait ms none = ms) ∧
    (∀ ms o, downloadBackoffWait ms o = ms) ∧
    (∀ ms o, recoveryBackoffWait ms o = ms) := by
  refine ⟨fun ms t => ?_, fun ms => rfl, fun ms o => rfl, fun ms o => rfl⟩
  simp only [interCycleWait, taskManagerSleepWait]
  split
  · omega
  · omega

/-! ## C4: the download/upload pipeline -/

theorem downloadPhotoGo_attempts_le (photo : PhotoWithUrl) :
    ∀ l : List AttemptOutcome, (downloadPhotoGo photo l).2 ≤ l.length := by
  intro l
  induction l with
  | nil => simp [downloadPhotoGo]
  | cons o rest ih =>
      cases o with
      | uploaded path size => simp [downloadPhotoGo]
      | httpError status text =>
          cases rest with
          | nil => simp [downloadPhotoGo]
          | cons o' rest' =>
              simp only [downloadPhotoGo, List.length_cons] at ih ⊢
              omega
      | thrown msg =>
          cases rest with
          | nil => simp [downloadPhotoGo]
          | cons o' rest' =>
              simp only [downloadPhotoGo, List.length_cons] at ih ⊢
              omega

theorem downloadPhotoGo_first_success (photo : PhotoWithUrl) :
    ∀ (l : List AttemptOutcome) (path : Str) (size : ℕ),
      l.find? attemptSucceeded = some (.uploaded path size) →
      (downloadPhotoGo photo l).1 = successResult photo path size := by
  intro l
  induction l with
  | nil => intro path size h; simp [List.find?] at h
  | cons o rest ih =>
      intro path size h
      cases o with
      | uploaded p s =>
          rw [List.find?_cons_of_pos _ (by rfl)] at h
          cases h
          simp [downloadPhotoGo]
      | httpError status text =>
          rw [List.find?_cons_of_neg _ (by simp [attemptSucceeded])] at h
          cases rest with
          | nil => simp [List.find?] at h
          | cons o' rest' => simpa [downloadPhotoGo] using ih path size h
      | thrown msg =>
          rw [List.find?_cons_of_neg _ (by simp [attemptSucceeded])] at h
          cases rest with
          | nil => simp [List.find?] at h
          | cons o' rest' => simpa [downloadPhotoGo] using ih path size h

theorem downloadPhotoGo_all_failed (photo : PhotoWithUrl) :
    ∀ l : List AttemptOutcome, l ≠ [] →
      l.find? attemptSucceeded = none →
      (downloadPhotoGo photo l).1 =
        failureResult photo
          ((attemptErrorMessage (l.getLastD (.thrown []))).getD (strOf "")) := by
  intro l
  induction l with
  | nil => intro h; exact absurd rfl h
  | cons o rest ih =>
      intro _ h
      have ho : attemptSucceeded o = false := by
        by_contra hb
        rw [List.find?_cons_of_pos _ (by revert hb; cases o <;> simp [attemptSucceeded])] at h
        exact Option.noConfusion h
      rw [List.find?_cons_of_neg _ (by simp [ho])] at h
      cases o with
      | uploaded p s => simp [attemptSucceeded] at ho
      | httpError status text =>
          cases rest with
          | nil => rfl
          | cons o' rest' =>
              simpa [downloadPhotoGo, List.getLastD] using ih (by simp) h
      | thrown msg =>
          cases rest with
          | nil => rfl
          | cons o' rest' =>
              simpa [downloadPhotoGo, List.getLastD] using ih (by simp) h

theorem attemptsList_expand (outcome : ℕ → AttemptOutcome) :
    attemptsList outcome =
      [outcome 1, outcome 2, outcome 3, outcome 4, outcome 5] := by
  rfl

theorem downloadPhotos_counts (outcome : ℕ → ℕ → AttemptOutcome) :
    ∀ (photos : List PhotoWithUrl) (i : ℕ),
      (downloadPhotos outcome i photos).1 + (downloadPhotos outcome i photos).2.1 =
        photos.length ∧
      (downloadPhotos outcome i photos).2.2.length = photos.length ∧
      (downloadPhotos outcome i photos).1 =
        (downloadPhotos outcome i photos).2.2.countP (fun res => res.success) := by
  intro photos
  induction photos with
  | nil => intro i; simp [downloadPhotos]
  | cons photo rest ih =>
      intro i
      obtain ⟨ih1, ih2, ih3⟩ := ih (i + 1)
      by_cases hs : ((downloadPhoto photo (outcome i)).1).success = true
      · refine ⟨?_, ?_, ?_⟩ <;>
          simp [downloadPhotos, hs, List.countP_cons, ih1, ih2, ih3] <;> omega
      · refine ⟨?_, ?_, ?_⟩ <;>
          simp [downloadPhotos, hs, List.countP_cons, ih1, ih2, ih3] <;> omega

/-- C4: `downloadPhoto` makes at most `MAX_RETRIES = 5` attempts and
always returns a result value: an attempt whose HTTP response is not
ok fails (with the `HTTP status: text` message); the first successful
attempt yields the success record carrying fingerprint, filename,
Dropbox path and file size; when all five attempts fail the returned
value is the failure record carrying the fifth attempt's error
message.  `downloadPhotos` is therefore never interrupted by one
item's permanent failure and aggregates exact success/failure counts
over all items. -/
theorem downloadPipeline_bounded_and_total :
    (∀ photo outcome, (downloadPhoto photo outcome).2 ≤ MAX_RETRIES) ∧
    (∀ status text, attemptSucceeded (.httpError status text) = false ∧
      attemptErrorMessage (.httpError status text) =
        some (strOf "HTTP " ++ Nat.toDigits 10 status ++ strOf ": " ++ text)) ∧
    (∀ photo outcome path size,
      (attemptsList outcome).find? attemptSucceeded = some (.uploaded path size) →
      (downloadPhoto photo outcome).1 = successResult photo path size) ∧
    (∀ photo outcome,
      (attemptsList outcome).find? attemptSucceeded = none →
      (downloadPhoto photo outcome).1 =
        failureResult photo ((attemptErrorMessage (outcome 5)).getD (strOf ""))) ∧
    (∀ outcome i photos,
      (downloadPhotos outcome i photos).1 + (downloadPhotos outcome i photos).2.1 =
        photos.length ∧
      (downloadPhotos outcome i photos).2.2.length = photos.length ∧
      (downloadPhotos outcome i photos).1 =
        (downloadPhotos outcome i photos).2.2.countP (fun res => res.success)) := by
  refine ⟨?_, fun status text => ⟨rfl, rfl⟩, ?_, ?_, ?_⟩
  · intro photo outcome
    have := downloadPhotoGo_attempts_le photo (attemptsList outcome)
    simpa [downloadPhoto, attemptsList_expand, MAX_RETRIES] using this
  · intro photo outcome path size h
    exact downloadPhotoGo_first_success photo _ path size h
  · intro photo outcome h
    have := downloadPhotoGo_all_failed photo (attemptsList outcome)
      (by rw [attemptsList_expand]; simp) h
    simpa [downloadPhoto, attemptsList_expand, List.getLastD] using this
  · intro outcome i photos
    exact downloadPhotos_counts outcome photos i

/-- Witness for `downloadPipeline_bounded_and_total`: a photo whose
first attempt gets HTTP 404 and whose second attempt succeeds yields
the success record after two attempts; one whose five attempts all
get HTTP 404 yields the failure record. -/
theorem downloadPipeline_bounded_and_total_witness :
    (downloadPhoto
        { index := 0, fingerprint := strOf "a.jpg", thumbnailUrl := strOf "//h/a.jpg",
          url := strOf "https://h/a.jpg", filename := strOf "a.jpg" }
        (fun attempt => if attempt = 1 then .httpError 404 (strOf "Not Found")
          else .uploaded (strOf "/photos/a.jpg") 17)).1 =
      successResult
        { index := 0, fingerprint := strOf "a.jpg", thumbnailUrl := strOf "//h/a.jpg",
          url := strOf "https://h/a.jpg", filename := strOf "a.jpg" }
        (strOf "/photos/a.jpg") 17 ∧
    (downloadPhoto
        { index := 0, fingerprint := strOf "a.jpg", thumbnailUrl := strOf "//h/a.jpg",
          url := strOf "https://h/a.jpg", filename := strOf "a.jpg" }
        (fun _ => .httpError 404 (strOf "Not Found"))).1 =
      failureResult
        { index := 0, fingerprint := strOf "a.jpg", thumbnailUrl := strOf "//h/a.jpg",
          url := strOf "https://h/a.jpg", filename := strOf "a.jpg" }
        ((attemptErrorMessage (.httpError 404 (strOf "Not Found"))).getD (strOf "")) :=
  ⟨downloadPipeline_bounded_and_total.2.2.1 _ _ (strOf "/photos/a.jpg") 17 (by decide),
   downloadPipeline_bounded_and_total.2.2.2.1 _ _ (by decide)⟩

/-! ## C2: the recovery retry budget -/

theorem attemptRecovery_preserves_budget (task : RunningTaskState) (errMsg : Str)
    (r : ℚ) (reinitOk navOk : Bool) (now : ℕ) :
    (attemptRecovery task errMsg r reinitOk navOk now).2.1.maxRetries = task.maxRetries ∧
    (attemptRecovery task errMsg r reinitOk navOk now).2.1.retryCount ≤
      max task.retryCount task.maxRetries ∧
    (task.recoveryHistory.length ≤ task.retryCount →
      (attemptRecovery task errMsg r reinitOk navOk now).2.1.recoveryHistory.length ≤
        (attemptRecovery task errMsg r reinitOk navOk now).2.1.retryCount) := by
  simp only [attemptRecovery]
  split
  · exact ⟨rfl, le_max_left _ _, fun h => h⟩
  · split
    · exact ⟨rfl, le_max_left _ _, fun h => h⟩
    · rename_i hrec hbudget
      split
      · refine ⟨rfl, ?_, fun h => ?_⟩ <;> simp <;> omega
      · refine ⟨rfl, ?_, fun h => ?_⟩ <;> simp <;> omega

theorem recoveryRun_invariant (failures : List FailureEvent) :
    ∀ task : RunningTaskState,
      task.retryCount ≤ task.maxRetries →
      task.recoveryHistory.length ≤ task.retryCount →
      (recoveryRun task failures).maxRetries = task.maxRetries ∧
      (recoveryRun task failures).retryCount ≤ task.maxRetries ∧
      (recoveryRun task failures).recoveryHistory.length ≤
        (recoveryRun task failures).retryCount := by
  induction failures with
  | nil => intro task h1 h2; exact ⟨rfl, h1, h2⟩
  | cons f rest ih =>
      intro task h1 h2
      obtain ⟨hm, hr, hh⟩ :=
        attemptRecovery_preserves_budget task f.errMsg f.r f.reinitOk f.navOk f.now
      obtain ⟨ihm, ihr, ihh⟩ :=
        ih (attemptRecovery task f.errMsg f.r f.reinitOk f.navOk f.now).2.1
          (by rw [hm]; omega) (hh h2)
      refine ⟨by rw [recoveryRun, ihm, hm], ?_, by rw [recoveryRun] at *; exact ihh⟩
      rw [recoveryRun]
      omega

/-- C2: `attemptRecovery` returns `false` immediately — with no
backoff sleep, no session re-acquisition and no counter change —
whenever the classified category is not recoverable or the retry
count has reached the budget; the retry counter never exceeds the
budget; once the counter has reached the budget, `handleTaskError`
takes the terminal stop path; and over any sequence of escaping
failures of a run started by `startTask` (budget 3), at most 3
recoveries are ever attempted. -/
theorem recovery_budget_enforced :
    (∀ task errMsg r reinitOk navOk now,
      (classifyTaskError errMsg ∉ RECOVERABLE_ERRORS ∨
          task.maxRetries ≤ task.retryCount) →
      attemptRecovery task errMsg r reinitOk navOk now = (false, task, [])) ∧
    (∀ task errMsg r reinitOk navOk now,
      (attemptRecovery task errMsg r reinitOk navOk now).2.1.retryCount ≤
        max task.retryCount task.maxRetries) ∧
    (∀ task errMsg r reinitOk navOk now,
      task.maxRetries ≤ task.retryCount →
      handleTaskErrorOutcome task errMsg r reinitOk navOk now = .terminalStop) ∧
    (∀ taskId config failures,
      (recoveryRun (initialRunningTask taskId config) failures).retryCount ≤ 3 ∧
      (recoveryRun (initialRunningTask taskId config) failures).recoveryHistory.length ≤ 3) := by
  have hfalse : ∀ task errMsg r reinitOk navOk now,
      (classifyTaskError errMsg ∉ RECOVERABLE_ERRORS ∨
          task.maxRetries ≤ task.retryCount) →
      attemptRecovery task errMsg r reinitOk navOk now = (false, task, []) := by
    intro task errMsg r reinitOk navOk now h
    simp only [attemptRecovery]
    split
    · rfl
    · split
      · rfl
      · rename_i hrec hbudget
        rcases h with h | h
        · exact absurd h hrec
        · exact absurd h hbudget
  refine ⟨hfalse, ?_, ?_, ?_⟩
  · intro task errMsg r reinitOk navOk now
    exact (attemptRecovery_preserves_budget task errMsg r reinitOk navOk now).2.1
  · intro task errMsg r reinitOk navOk now h
    unfold handleTaskErrorOutcome
    rw [hfalse task errMsg r reinitOk navOk now (Or.inr h)]
    rfl
  · intro taskId config failures
    obtain ⟨hm, hr, hh⟩ := recoveryRun_invariant failures (initialRunningTask taskId config)
      (by simp [initialRunningTask]) (by simp [initialRunningTask])
    refine ⟨by simpa [initialRunningTask] using hr, ?_⟩
    calc (recoveryRun (initialRunningTask taskId config) failures).recoveryHistory.length
        ≤ (recoveryRun (initialRunningTask taskId config) failures).retryCount := hh
      _ ≤ 3 := by simpa [initialRunningTask] using hr

/-- Witness for `recovery_budget_enforced`: with the budget exhausted
(`retryCount = maxRetries = 3`), even a recoverable timeout is
rejected immediately with no recovery steps. -/
theorem recovery_budget_enforced_witness :
    attemptRecovery sampleExhaustedTask (strOf "timeout waiting for page") 0 true true 0 =
      (false, sampleExhaustedTask, []) :=
  recovery_budget_enforced.1 sampleExhaustedTask (strOf "timeout waiting for page")
    0 true true 0 (Or.inr (by decide))

/-! ## C1: dedup uniqueness and the fate of failed records (corrected) -/

/-- C1, counterexample: a failed record occupying the `(1, "a.jpg")`
slot makes `isDownloaded` answer `true`, so the next cycle's
new-item filter drops the re-discovered item instead of treating it
as new — the fingerprint is NOT re-resolved or re-downloaded. -/
theorem failedRecord_blocks_retry_counterexample :
    sampleFailedRow.status = DownloadStatus.failed ∧
    isDownloaded [sampleFailedRow] 1 (strOf "a.jpg") = true ∧
    samplePhotoInfo.fingerprint = strOf "a.jpg" ∧
    filterNewPhotos [sampleFailedRow] 1 [samplePhotoInfo] = [] := by
  refine ⟨rfl, by decide, rfl, by decide⟩

/-- C1 amended: at most one DownloadRecord exists per
`(taskId, fingerprint)` — `INSERT OR REPLACE` upsert preserves key
uniqueness and any row remaining at the saved key is the saved row
(so a later success replaces a failed record) — but a failed record
DOES suppress retry: the new-item filter checks only that some row
with the key exists, ignoring its status, so the fingerprint is not
re-resolved or re-downloaded while any record occupies the slot. -/
theorem dedup_unique_and_any_record_suppresses :
    (∀ db r, KeysUnique db → KeysUnique (saveDownloadRecord db r)) ∧
    (∀ db r r', r'.taskId = r.taskId → r'.fingerprint = r.fingerprint →
      r' ∈ saveDownloadRecord db r → r' = r) ∧
    (∀ db taskId photos p, isDownloaded db taskId p.fingerprint = true →
      p ∉ filterNewPhotos db taskId photos) := by
  refine ⟨?_, ?_, ?_⟩
  · intro db r h
    unfold saveDownloadRecord KeysUnique
    refine List.Pairwise.cons ?_ (List.Pairwise.sublist (List.filter_sublist db) h)
    intro b hb hkey
    have hrow := (List.mem_filter.mp hb).2
    simp only [rowHasKey, Bool.not_eq_true', Bool.and_eq_false_iff, beq_eq_false_iff_ne,
      ne_eq] at hrow
    rcases hrow with hrow | hrow
    · exact hrow hkey.1.symm
    · exact hrow hkey.2.symm
  · intro db r r' h1 h2 hmem
    rcases List.mem_cons.mp hmem with h | h
    · exact h
    · have hrow := (List.mem_filter.mp h).2
      simp only [rowHasKey, Bool.not_eq_true', Bool.and_eq_false_iff, beq_eq_false_iff_ne,
        ne_eq] at hrow
      rcases hrow with hrow | hrow
      · exact absurd h1 hrow
      · exact absurd h2 hrow
  · intro db taskId photos p hdl hmem
    have := (List.mem_filter.mp hmem).2
    rw [hdl] at this
    simp at this

/-- Witness for `dedup_unique_and_any_record_suppresses`: upserting
the sample failed row into the empty store yields a store with unique
keys. -/
theorem dedup_unique_and_any_record_suppresses_witness :
    KeysUnique (saveDownloadRecord [] sampleFailedRow) :=
  dedup_unique_and_any_record_suppresses.1 [] sampleFailedRow List.Pairwise.nil

/-! ## C8: the guards of `startTask` -/

/-- C8: `startTask` fails with `AlreadyRunning` when a running-task
entry exists, with `NotFound` when no config row exists, and with
`StorageNotConnected` when the Dropbox capability reports no
credentials; on every failure the returned state is exactly the
input state — no running entry is created, no config row (and hence
no active flag) is changed, and no event is emitted. -/
theorem startTask_guards (s : ManagerState) (taskId : ℕ) :
    (s.runningTasks.any (fun p => p.1 == taskId) = true →
      startTask s taskId = (s, some .alreadyRunning)) ∧
    (s.runningTasks.any (fun p => p.1 == taskId) = false →
      getTaskConfig s taskId = none →
      startTask s taskId = (s, some .taskNotFound)) ∧
    (∀ config, s.runningTasks.any (fun p => p.1 == taskId) = false →
      getTaskConfig s taskId = some config →
      s.dropboxConnected = false →
      startTask s taskId = (s, some .dropboxNotConnected)) ∧
    (∀ s' e, startTask s taskId = (s', some e) → s' = s) := by
  refine ⟨?_, ?_, ?_, ?_⟩
  · intro h
    unfold startTask
    rw [if_pos h]
  · intro h1 h2
    unfold startTask
    rw [if_neg (by simp [h1]), h2]
  · intro config h1 h2 h3
    unfold startTask
    rw [if_neg (by simp [h1]), h2]
    simp [h3]
  · intro s' e
    unfold startTask
    split
    · intro h
      cases h
      rfl
    · split
      · intro h
        cases h
        rfl
      · split
        · intro h
          cases h
          rfl
        · intro h
          simp at h

/-- Witness for `startTask_guards`: starting task 1 on a state where
task 1 is already running fails with `AlreadyRunning` and leaves the
state untouched. -/
theorem startTask_guards_witness :
    startTask sampleRunningManager 1 = (sampleRunningManager, some .alreadyRunning) :=
  (startTask_guards sampleRunningManager 1).1 (by decide)

/-! ## C10: persistence of download outcomes -/

/-- C10: a success record is persisted only when the resolved photo
is found again AND the result carries a truthy `dropboxPath` AND a
truthy (non-zero) `fileSize`; in particular a successful upload
reported with size 0 leaves the store untouched, so its fingerprint
still passes the new-item filter on every later cycle and is
re-downloaded.  Failed downloads are always recorded. -/
theorem successRecord_requires_truthy_fields :
    (∀ db taskId photos result, truthyNat result.fileSize = false →
      onDownloadComplete db taskId photos result = db) ∧
    (∀ db taskId photos result, truthyStr result.dropboxPath = false →
      onDownloadComplete db taskId photos result = db) ∧
    (∀ db taskId photos result,
      photos.find? (fun p => p.fingerprint == result.fingerprint) = none →
      onDownloadComplete db taskId photos result = db) ∧
    (∀ db taskId photos result photo,
      photos.find? (fun p => p.fingerprint == result.fingerprint) = some photo →
      truthyStr result.dropboxPath = true → truthyNat result.fileSize = true →
      onDownloadComplete db taskId photos result =
        saveDownloadRecord db
          { taskId := taskId, fingerprint := result.fingerprint,
            originalFilename := result.filename, thumbnailUrl := photo.thumbnailUrl,
            dropboxPath := result.dropboxPath, fileSize := result.fileSize,
            status := .success, errorMessage := none }) ∧
    (∀ db taskId photo err,
      isDownloaded (onDownloadFailed db taskId photo err) taskId photo.fingerprint = true) ∧
    (∀ db taskId photosWithUrls result photos p,
      result.fileSize = some 0 →
      isDownloaded db taskId p.fingerprint = false →
      p ∈ photos →
      p ∈ filterNewPhotos (onDownloadComplete db taskId photosWithUrls result)
            taskId photos) := by
  have hsize : ∀ db taskId photos result, truthyNat result.fileSize = false →
      onDownloadComplete db taskId photos result = db := by
    intro db taskId photos result h
    unfold onDownloadComplete
    split
    · rw [if_neg (by simp [h])]
    · rfl
  refine ⟨hsize, ?_, ?_, ?_, ?_, ?_⟩
  · intro db taskId photos result h
    unfold onDownloadComplete
    split
    · rw [if_neg (by simp [h])]
    · rfl
  · intro db taskId photos result h
    unfold onDownloadComplete
    rw [h]
  · intro db taskId photos result photo hfind hpath hsz
    unfold onDownloadComplete
    rw [hfind, hpath, hsz]
    rfl
  · intro db taskId photo err
    unfold onDownloadFailed saveDownloadRecord isDownloaded
    simp [rowHasKey]
  · intro db taskId photosWithUrls result photos p hzero hnew hmem
    rw [hsize db taskId photosWithUrls result (by rw [hzero]; rfl)]
    exact List.mem_filter.mpr ⟨hmem, by simp [hnew]⟩

/-- Witness for `successRecord_requires_truthy_fields`: a success
result reporting size 0 produces no record. -/
theorem successRecord_requires_truthy_fields_witness :
    onDownloadComplete [] 1 [samplePhotoWithUrl] sampleZeroSizeResult = [] :=
  successRecord_requires_truthy_fields.1 [] 1 [samplePhotoWithUrl]
    sampleZeroSizeResult rfl

/-! ## C6: partial resolution -/

theorem resolveItem_fingerprint_mem (api : UrlApi) (now : ℕ) (targets : List Str)
    (idx : ℕ) (it : PageItem) (r : PhotoWithUrl)
    (h : resolveItem api now targets idx it = some r) :
    r.fingerprint ∈ targets := by
  simp only [resolveItem] at h
  split at h
  · rename_i hc
    split at h
    · split at h
      · cases h
        exact List.mem_of_elem_eq_true hc
      · exact Option.noConfusion h
    · exact Option.noConfusion h
    · exact Option.noConfusion h
  · exact Option.noConfusion h

theorem extractLoop_fingerprint_mem (api : UrlApi) (now : ℕ) (targets : List Str) :
    ∀ (items : List PageItem) (idx : ℕ) (r : PhotoWithUrl),
      r ∈ extractLoop api now targets idx items → r.fingerprint ∈ targets := by
  intro items
  induction items with
  | nil => intro idx r h; simp [extractLoop] at h
  | cons it rest ih =>
      intro idx r h
      rw [extractLoop] at h
      split at h
      · rename_i r' hr'
        rcases List.mem_cons.mp h with h | h
        · exact h ▸ resolveItem_fingerprint_mem api now targets idx it r' hr'
        · exact ih (idx + 1) r h
      · exact ih (idx + 1) r h

theorem extractLoop_skips_failed (api : UrlApi) (now : ℕ) (targets : List Str)
    (it : PageItem) (hfail : it.outcome = .failed) :
    ∀ (pre : List PageItem) (idx : ℕ) (post : List PageItem),
      extractLoop api now targets idx (pre ++ it :: post) =
        extractLoop api now targets idx pre ++
          extractLoop api now targets (idx + (pre.length + 1)) post := by
  intro pre
  induction pre with
  | nil =>
      intro idx post
      have hnone : resolveItem api now targets idx it = none := by
        simp only [resolveItem, hfail]
        split <;> rfl
      simp [extractLoop, hnone]
  | cons q pre' ih =>
      intro idx post
      simp only [List.cons_append, extractLoop, List.append_eq]
      rw [ih (idx + 1) post]
      have harith : idx + 1 + (pre'.length + 1) = idx + ((q :: pre').length + 1) := by
        simp [List.length_cons]
        omega
      rw [harith]
      split <;> simp

/-- C6: `extractPhotoUrls` returns resolved resources only for items
whose recomputed fingerprint is in the target set; an item whose
resolution fails is skipped without aborting the rest of the pass
(the other items' contributions are exactly those they make on their
own); and on the spec's example — 10 targets of which 3 fail — the
pass returns exactly the 7 resources that resolved. -/
theorem extraction_is_partial :
    (∀ api now targets items r,
      r ∈ extractPhotoUrls api now targets items → r.fingerprint ∈ targets) ∧
    (∀ api now targets idx pre post it, it.outcome = .failed →
      extractLoop api now targets idx (pre ++ it :: post) =
        extractLoop api now targets idx pre ++
          extractLoop api now targets (idx + (pre.length + 1)) post) ∧
    ((extractPhotoUrls sampleUrlApi 0 sampleTargets sampleItems).length = 7 ∧
      (extractPhotoUrls sampleUrlApi 0 sampleTargets sampleItems).map
          (fun r => r.fingerprint) =
        [strOf "f3.jpg", strOf "f4.jpg", strOf "f5.jpg", strOf "f6.jpg",
         strOf "f7.jpg", strOf "f8.jpg", strOf "f9.jpg"]) := by
  refine ⟨?_, ?_, by decide, by decide⟩
  · intro api now targets items r h
    unfold extractPhotoUrls at h
    split at h
    · simp at h
    · exact extractLoop_fingerprint_mem api now targets items 0 r h
  · intro api now targets idx pre post it hfail
    exact extractLoop_skips_failed api now targets it hfail pre idx post

/-- Witness for `extraction_is_partial`: the first resolved resource
of the sample pass has fingerprint `f3.jpg`, which is among the
sample targets. -/
theorem extraction_is_partial_witness :
    (strOf "f3.jpg") ∈ sampleTargets :=
  extraction_is_partial.1 sampleUrlApi 0 sampleTargets sampleItems
    { index := 3, fingerprint := strOf "f3.jpg", thumbnailUrl := strOf "//h/f3.jpg",
      url := strOf "https://x/orig.jpg", filename := strOf "orig.jpg" }
    (by decide)

/-! ## C9: fingerprint derivation -/

/-- C9: the fingerprint derivation is total and matches the reference
examples: on the CDN-suffixed reference URL it extracts
`1060536x354blur2.jpg` (whatever the clock, random draw and ordinal);
on the empty string with ordinal `i` it returns the fallback string,
which contains the timestamp and `i` as substrings; and on every
input it returns either the sanitized derived filename or the
fallback — it never throws. -/
theorem fingerprint_derivation_total :
    (∀ idx now rand,
      extractFingerprintFromUrl
        (strOf "//cdn.example/a/b/1060536x354blur2.jpg~tplv-xyz/wst/3:480:1000:gif.avif")
        idx now rand = strOf "1060536x354blur2.jpg") ∧
    (∀ now i rand,
      extractFingerprintFromUrl [] (some i) now rand =
        fallbackFingerprint now (some i) rand ∧
      (∃ a b, a ++ Nat.toDigits 10 now ++ b = fallbackFingerprint now (some i) rand) ∧
      (∃ a b, a ++ Nat.toDigits 10 i ++ b = fallbackFingerprint now (some i) rand)) ∧
    (∀ url idx now rand,
      extractFingerprintFromUrl url idx now rand =
        sanitizePathComponent (fingerprintCore url) ∨
      extractFingerprintFromUrl url idx now rand =
        fallbackFingerprint now idx rand) := by
  refine ⟨fun idx now rand => rfl, fun now i rand => ⟨rfl, ?_, ?_⟩, ?_⟩
  · exact ⟨strOf "fallback_", strOf "_" ++ Nat.toDigits 10 i, by
      simp [fallbackFingerprint, List.append_assoc]⟩
  · exact ⟨strOf "fallback_" ++ Nat.toDigits 10 now ++ strOf "_", [], by
      simp [fallbackFingerprint, List.append_assoc]⟩
  · intro url idx now rand
    simp only [extractFingerprintFromUrl]
    split
    · exact Or.inr rfl
    · split
      · exact Or.inr rfl
      · exact Or.inl rfl

end PhotoProcessor
